import Mathlib

/-!
Verification of the bnn_cyclops synthesizer core against its specification.

The C++ sources under `src/app/engine/` are shallowly embedded here:
`float` arithmetic is idealized as exact rational arithmetic (`ℚ`); every
constant is the rational value of the corresponding literal; stateful
classes become records with explicit state-passing functions; calls to
`std::rand()` are threaded explicitly as rational draws `r` normalized to
`r = rand() / RAND_MAX ∈ [0,1]`.
-/

namespace BnnCyclops

/-! # Definitions -/

/-! ## Scale-degree quantization (src/app/engine/synth_engine.h)

`kThresholds` and `DetermineTargetIndex` are translated from
`SynthEngine::kThresholds` (lines 261-269) and
`SynthEngine::DetermineTargetIndex` (lines 495-517). -/

def kThresholds : List ℚ := [1/8, 1/4, 3/8, 1/2, 5/8, 3/4, 7/8]

def kNumThresholds : ℕ := kThresholds.length

def kNumNotes : ℕ := 8

/-- The `for (int i = 1; i < kNumThresholds; i++)` scan of
`DetermineTargetIndex`: `i` is the current loop index and the list is the
remaining tail of `kThresholds`; falls through to `kNumNotes - 1`. -/
def detIndexLoop (pot : ℚ) : ℕ → List ℚ → ℕ
  | _, [] => kNumNotes - 1
  | i, th :: rest => if pot < th then i else detIndexLoop pot (i + 1) rest

/-- `SynthEngine::DetermineTargetIndex` (synth_engine.h lines 495-517). -/
def DetermineTargetIndex (pot : ℚ) : ℕ :=
  if pot < kThresholds.getD 0 0 then 0
  else if kThresholds.getD (kNumThresholds - 1) 0 ≤ pot then kNumNotes - 1
  else detIndexLoop pot 1 (kThresholds.drop 1)

/-! ## Pulse generator (src/app/engine/pulse_generator.h)

`PulseGenState` holds the mutable members of `PulseGenerator`;
`randomizationperiod` is the `const int` member initialized to 5. -/

structure PulseGenState where
  base_dutycycle : ℚ
  duty_cyclerandomization : ℚ
  current_dutycycle : ℚ
  randomizationcounter : ℤ
  deriving DecidableEq

def randomizationperiod : ℤ := 5

/-- State established by the `PulseGenerator` constructor. -/
def PulseGenerator.initial : PulseGenState :=
  { base_dutycycle := 1/2, duty_cyclerandomization := 0,
    current_dutycycle := 1/2, randomizationcounter := 0 }

/-- `PulseGenerator::UpdateDutyCycle` (pulse_generator.h lines 58-73);
`r` is the normalized `std::rand()` draw. -/
def UpdateDutyCycle (r : ℚ) (s : PulseGenState) : PulseGenState :=
  if 0 < s.duty_cyclerandomization then
    let offset := (r * 2 - 1) * (3/10 * s.duty_cyclerandomization)
    { s with current_dutycycle := max (1/10) (min (9/10) (s.base_dutycycle + offset)) }
  else
    { s with current_dutycycle := s.base_dutycycle }

/-- `PulseGenerator::SetBaseDutyCycle` (pulse_generator.h lines 20-25). -/
def SetBaseDutyCycle (r duty_cycle : ℚ) (s : PulseGenState) : PulseGenState :=
  UpdateDutyCycle r { s with base_dutycycle := max 0 (min 1 duty_cycle) }

/-- `PulseGenerator::SetDutyCycleRandomization` (pulse_generator.h lines 26-31). -/
def SetDutyCycleRandomization (r randomization : ℚ) (s : PulseGenState) : PulseGenState :=
  UpdateDutyCycle r { s with duty_cyclerandomization := max 0 (min 1 randomization) }

/-- `fmodf(t, 1.0f)`: C `fmod` truncates toward zero. -/
def qtrunc (q : ℚ) : ℚ := if q < 0 then (⌈q⌉ : ℤ) else (⌊q⌋ : ℤ)

def fmod1 (t : ℚ) : ℚ := t - qtrunc t

/-- `PulseGenerator::PolyBlep` (pulse_generator.h lines 74-94). -/
def PolyBlep (t0 dt : ℚ) : ℚ :=
  if dt = 0 then 0
  else if fmod1 t0 < dt then
    fmod1 t0 / dt + fmod1 t0 / dt - (fmod1 t0 / dt) * (fmod1 t0 / dt) - 1
  else if fmod1 t0 > 1 - dt then
    ((fmod1 t0 - 1) / dt) * ((fmod1 t0 - 1) / dt)
      + ((fmod1 t0 - 1) / dt) + ((fmod1 t0 - 1) / dt) + 1
  else 0

/-- The wrapped falling-edge offset `t = phase - current_dutycycle; if (t < 0) t += 1`
computed in `GenerateSample` (pulse_generator.h lines 45-47). -/
def fallingPhase (phase duty : ℚ) : ℚ :=
  if phase - duty < 0 then phase - duty + 1 else phase - duty

/-- The sample value computed by `GenerateSample` for a given duty cycle
(pulse_generator.h lines 40-49): raw square value plus the PolyBLEP
corrections at the rising and falling edges. -/
def pulseSampleValue (phase dt duty : ℚ) : ℚ :=
  (if phase < duty then 1 else -1)
    + PolyBlep phase dt - PolyBlep (fallingPhase phase duty) dt

/-- `PulseGenerator::GenerateSample` (pulse_generator.h lines 32-50). -/
def GenerateSample (r phase dt : ℚ) (s : PulseGenState) : ℚ × PulseGenState :=
  let s1 : PulseGenState := { s with randomizationcounter := s.randomizationcounter - 1 }
  let s2 : PulseGenState :=
    if s1.randomizationcounter ≤ 0 then
      { UpdateDutyCycle r s1 with randomizationcounter := randomizationperiod }
    else s1
  (pulseSampleValue phase dt s2.current_dutycycle, s2)

/-- Iterate `GenerateSample` over a list of per-call inputs `(r, phase, dt)`,
keeping only the state. -/
def runGenerate (inputs : List (ℚ × ℚ × ℚ)) (s : PulseGenState) : PulseGenState :=
  inputs.foldl (fun st i => (GenerateSample i.1 i.2.1 i.2.2 st).2) s

/-- Invariant tying the duty-cycle fields together: base and randomization
are fixed, and the current duty cycle is in `[0.1, 0.9]` when randomization
is positive, and equal to the base when randomization is zero. -/
def DutyInv (b rq : ℚ) (s : PulseGenState) : Prop :=
  s.base_dutycycle = b ∧ s.duty_cyclerandomization = rq ∧
  (0 < rq → 1/10 ≤ s.current_dutycycle ∧ s.current_dutycycle ≤ 9/10) ∧
  (rq = 0 → s.current_dutycycle = b)

/-! ## Vibrato (src/app/engine/vibrato.h) -/

/-- The `float` value of `M_PI` (the source computes
`2.0f * static_cast<float>(M_PI)`). -/
def qPI : ℚ := 13176795 / 4194304

structure VibratoState where
  sampleRate_ : ℚ
  phase_ : ℚ
  rate_ : ℚ
  depth_ : ℚ
  targetDepth_ : ℚ
  buildupTime_ : ℚ
  currentDepth_ : ℚ
  buildingUp_ : Bool
  deriving DecidableEq

/-- State established by the `Vibrato` constructor (vibrato.h lines 12-22). -/
def Vibrato.ctor : VibratoState :=
  { sampleRate_ := 16000, phase_ := 0, rate_ := 5, depth_ := 1/50,
    targetDepth_ := 1/50, buildupTime_ := 1, currentDepth_ := 0,
    buildingUp_ := false }

/-- `Vibrato::Init` (vibrato.h lines 28-36). -/
def Vibrato.Init (sampleRate : ℚ) (s : VibratoState) : VibratoState :=
  { s with sampleRate_ := sampleRate, phase_ := 0, currentDepth_ := 0,
           buildingUp_ := false, depth_ := s.targetDepth_ }

/-- `Vibrato::SetParameters` (vibrato.h lines 44-49). -/
def Vibrato.SetParameters (rate depth buildupTime : ℚ) (s : VibratoState) :
    VibratoState :=
  { s with rate_ := rate, targetDepth_ := depth,
           buildupTime_ := if buildupTime ≤ 0 then 1/100 else buildupTime }

/-- `Vibrato::SetDepth` (vibrato.h lines 55-60): maps `[0,1] -> [0,0.25]`
with no clamping. -/
def Vibrato.SetDepth (newDepth : ℚ) (s : VibratoState) : VibratoState :=
  { s with targetDepth_ := newDepth * (1/4) }

/-- `Vibrato::Trigger` (vibrato.h lines 66-70). -/
def Vibrato.Trigger (s : VibratoState) : VibratoState :=
  { s with buildingUp_ := true, currentDepth_ := 0 }

/-- The state update performed by `Vibrato::Process` (vibrato.h lines 77-152):
depth smoothing toward the target with clamp to `[0, 0.25]`, ramp of
`currentDepth_` toward `depth_` at rate `1/(buildupTime_ * sampleRate_)` with
the `0.0001` catch-up epsilon and the `[0, depth_]` clamp, and the LFO phase
advance wrapping at `2π`. The returned modulated frequency additionally
involves `std::sin` and is modelled by `Vibrato.ProcessOutput`. -/
def Vibrato.ProcessState (s : VibratoState) : VibratoState :=
  let depth1 := s.depth_ + (s.targetDepth_ - s.depth_) * (1/50)
  let depth2 := if depth1 < 0 then 0 else depth1
  let depth3 := if depth2 > 1/4 then 1/4 else depth2
  let alpha := 1 / (s.buildupTime_ * s.sampleRate_)
  let cdDiff := depth3 - s.currentDepth_
  let cd1 := s.currentDepth_ + cdDiff * alpha
  let cd2 := if |cdDiff| < 1/10000 then depth3 else cd1
  let bu2 := if |cdDiff| < 1/10000 then false else s.buildingUp_
  let cd3 := if cd2 < 0 then 0 else cd2
  let cd4 := if cd3 > depth3 then depth3 else cd3
  let phaseIncrement := 2 * qPI * s.rate_ / s.sampleRate_
  let ph1 := s.phase_ + phaseIncrement
  let ph2 := if ph1 ≥ 2 * qPI then ph1 - 2 * qPI else ph1
  { s with depth_ := depth3, currentDepth_ := cd4, buildingUp_ := bu2,
           phase_ := ph2 }

/-- The frequency returned by `Vibrato::Process`
(`inputFreq * (1 + sin(phase_) * currentDepth_)`), parametrized by the sine
implementation since `std::sin` is transcendental. -/
def Vibrato.ProcessOutput (sinq : ℚ → ℚ) (inputFreq : ℚ) (s : VibratoState) : ℚ :=
  inputFreq * (1 + sinq (Vibrato.ProcessState s).phase_
    * (Vibrato.ProcessState s).currentDepth_)

/-- Iterated `Vibrato::Process` state updates. -/
def iterVibrato : ℕ → VibratoState → VibratoState
  | 0, s => s
  | n + 1, s => iterVibrato n (Vibrato.ProcessState s)

/-- A vibrato state at steady live depth `1/4` (sample rate 10 Hz, buildup
time 1 s), immediately after `Trigger()`. -/
def vibratoTriggered : VibratoState :=
  Vibrato.Trigger
    { sampleRate_ := 10, phase_ := 0, rate_ := 5, depth_ := 1/4,
      targetDepth_ := 1/4, buildupTime_ := 1, currentDepth_ := 1/4,
      buildingUp_ := false }

/-! ## Formant filter (src/app/engine/formant_filter.h)

The three `FormantBiquad` filters and their coefficient state are omitted
from the record: their `UpdateFilter` computes `sin`/`cos` of the center
frequency and no claim refers to them; every other member of
`FormantFilter` is modelled. -/

inductive FilterMode
  | FILTER_MODE_NORMAL
  | FILTER_MODE_WAH
  deriving DecidableEq

inductive Vowel
  | VOWEL_I
  | VOWEL_IH
  | VOWEL_EH
  | VOWEL_AE
  | VOWEL_A
  | VOWEL_O
  | VOWEL_OU
  | VOWEL_UH
  | VOWEL_U
  | VOWEL_SCHWA
  deriving DecidableEq

/-- The integer value of each `Vowel` enumerator. -/
def Vowel.toIdx : Vowel → ℕ
  | .VOWEL_I => 0
  | .VOWEL_IH => 1
  | .VOWEL_EH => 2
  | .VOWEL_AE => 3
  | .VOWEL_A => 4
  | .VOWEL_O => 5
  | .VOWEL_OU => 6
  | .VOWEL_UH => 7
  | .VOWEL_U => 8
  | .VOWEL_SCHWA => 9

structure VowelFormantData where
  F1 : ℚ
  F2 : ℚ
  F3 : ℚ
  Q1 : ℚ
  Q2 : ℚ
  Q3 : ℚ
  deriving DecidableEq

/-- `VOICE_COUNT == 1` (formant_filter.h lines 27-32). -/
def VOICE_COUNT : ℤ := 1

/-- `FormantFilter::vowelData[VOICE_NEUTRAL]` (formant_filter.h lines 238-260). -/
def neutralVowelRow : List VowelFormantData :=
  [⟨270, 2290, 3010, 10, 9, 9⟩,
   ⟨390, 1990, 2550, 12, 11, 10⟩,
   ⟨530, 1840, 2480, 11, 11, 10⟩,
   ⟨660, 1720, 2410, 11, 11, 10⟩,
   ⟨730, 1090, 2440, 10, 8, 9⟩,
   ⟨570, 840, 2410, 11, 10, 10⟩,
   ⟨500, 700, 2450, 11, 10, 10⟩,
   ⟨440, 1020, 2240, 12, 10, 10⟩,
   ⟨300, 870, 2240, 10, 9, 9⟩,
   ⟨500, 1500, 2400, 12, 11, 10⟩]

/-- `FormantFilter::vowelData` (one row per voice; `VOICE_COUNT == 1`). -/
def vowelData : List (List VowelFormantData) := [neutralVowelRow]

/-- The table access `vowelData[voice][vowel]`. -/
def vowelLookup (voice : ℤ) (w : Vowel) : VowelFormantData :=
  (vowelData.getD voice.toNat []).getD w.toIdx ⟨0, 0, 0, 0, 0, 0⟩

structure FormantState where
  sampleRate_ : ℚ
  filterMode_ : FilterMode
  wahPosition_ : ℚ
  currentVoice_ : ℤ
  currentFormantFreqs_ : ℚ × ℚ × ℚ
  targetFormantFreqs_ : ℚ × ℚ × ℚ
  currentFormantQs_ : ℚ × ℚ × ℚ
  targetFormantQs_ : ℚ × ℚ × ℚ
  formantRate_ : ℚ
  q_mult_ : ℚ
  freq_mult_ : ℚ
  deriving DecidableEq

/-- `FormantFilter::SetMode` (formant_filter.h lines 85-88). -/
def FormantFilter.SetMode (mode : FilterMode) (s : FormantState) : FormantState :=
  { s with filterMode_ := mode }

/-- `FormantFilter::SetVoice` (formant_filter.h lines 91-98): guards against
an invalid voice index and otherwise stores it. The argument is the integer
value of the `VoiceType` cast (e.g. `std::rand() % 3` in
`SynthEngine::PossiblyUpdateVowel`). -/
def FormantFilter.SetVoice (voice : ℤ) (s : FormantState) : FormantState :=
  if voice < 0 ∨ VOICE_COUNT ≤ voice then s
  else { s with currentVoice_ := voice }

/-- `FormantFilter::SetWahPosition` (formant_filter.h lines 102-109). -/
def FormantFilter.SetWahPosition (pos : ℚ) (s : FormantState) : FormantState :=
  let p1 := if pos < 0 then 0 else pos
  let p2 := if p1 > 1 then 1 else p1
  { s with wahPosition_ := p2 }

/-- `FormantFilter::setQMult` (formant_filter.h lines 112-115). -/
def FormantFilter.setQMult (qMult : ℚ) (s : FormantState) : FormantState :=
  { s with q_mult_ := qMult }

/-- `FormantFilter::setFreqMult` (formant_filter.h lines 117-120). -/
def FormantFilter.setFreqMult (freqMult : ℚ) (s : FormantState) : FormantState :=
  { s with freq_mult_ := freqMult }

/-- `FormantFilter::SetVowel` (formant_filter.h lines 123-136): loads the
target formants from the table, only in normal mode. -/
def FormantFilter.SetVowel (vowel : Vowel) (s : FormantState) : FormantState :=
  if s.filterMode_ = FilterMode.FILTER_MODE_NORMAL then
    let vd := vowelLookup s.currentVoice_ vowel
    { s with targetFormantFreqs_ := (vd.F1, vd.F2, vd.F3),
             targetFormantQs_ := (vd.Q1, vd.Q2, vd.Q3) }
  else s

/-- `FormantFilter::SetFormantRate` (formant_filter.h lines 139-142). -/
def FormantFilter.SetFormantRate (rate : ℚ) (s : FormantState) : FormantState :=
  { s with formantRate_ := rate }

/-- The per-component smoothing `current += (target - current) * rate` of the
`UpdateParameters` loop (formant_filter.h lines 178-190). -/
def smooth3 (cur tgt : ℚ × ℚ × ℚ) (rate : ℚ) : ℚ × ℚ × ℚ :=
  (cur.1 + (tgt.1 - cur.1) * rate,
   cur.2.1 + (tgt.2.1 - cur.2.1) * rate,
   cur.2.2 + (tgt.2.2 - cur.2.2) * rate)

/-- `FormantFilter::UpdateParameters` (formant_filter.h lines 145-191): in
wah mode first recompute the targets by interpolating between `VOWEL_A` and
`VOWEL_OU`, then smooth the current values toward the targets. The final
`filters_[i].SetParameters` push only mutates the omitted biquad state. -/
def FormantFilter.UpdateParameters (s : FormantState) : FormantState :=
  let s1 :=
    if s.filterMode_ = FilterMode.FILTER_MODE_WAH then
      let vA := vowelLookup s.currentVoice_ Vowel.VOWEL_A
      let vOU := vowelLookup s.currentVoice_ Vowel.VOWEL_OU
      { s with
          targetFormantFreqs_ :=
            (vA.F1 + s.wahPosition_ * (vOU.F1 - vA.F1),
             vA.F2 + s.wahPosition_ * (vOU.F2 - vA.F2),
             vA.F3 + s.wahPosition_ * (vOU.F3 - vA.F3)),
          targetFormantQs_ :=
            (vA.Q1 + s.wahPosition_ * (vOU.Q1 - vA.Q1),
             vA.Q2 + s.wahPosition_ * (vOU.Q2 - vA.Q2),
             vA.Q3 + s.wahPosition_ * (vOU.Q3 - vA.Q3)) }
    else s
  { s1 with
      currentFormantFreqs_ :=
        smooth3 s1.currentFormantFreqs_ s1.targetFormantFreqs_ s1.formantRate_,
      currentFormantQs_ :=
        smooth3 s1.currentFormantQs_ s1.targetFormantQs_ s1.formantRate_ }

/-- `FormantFilter::Init` (formant_filter.h lines 56-82). -/
def FormantFilter.Init (sampleRate : ℚ) : FormantState :=
  let s0 : FormantState :=
    { sampleRate_ := sampleRate, filterMode_ := FilterMode.FILTER_MODE_NORMAL,
      wahPosition_ := 0, currentVoice_ := 0,
      currentFormantFreqs_ := (0, 0, 0), targetFormantFreqs_ := (0, 0, 0),
      currentFormantQs_ := (0, 0, 0), targetFormantQs_ := (0, 0, 0),
      formantRate_ := 0, q_mult_ := 1, freq_mult_ := 1 }
  let s1 := FormantFilter.SetVowel Vowel.VOWEL_A s0
  { s1 with currentFormantFreqs_ := s1.targetFormantFreqs_,
            currentFormantQs_ := s1.targetFormantQs_, formantRate_ := 1/500 }

/-- The formant-filter state after `SynthEngine::Init` (synth_engine.h lines
68-90): `Init(16000)`, `SetVoice(VOICE_NEUTRAL)`, `setQMult(4)`,
`setFreqMult(0.75)`, `SetMode(FILTER_MODE_NORMAL)`, `SetFormantRate(0.0001)`. -/
def engineFormantInit : FormantState :=
  FormantFilter.SetFormantRate (1/10000)
    (FormantFilter.SetMode FilterMode.FILTER_MODE_NORMAL
      (FormantFilter.setFreqMult (3/4)
        (FormantFilter.setQMult 4
          (FormantFilter.SetVoice 0 (FormantFilter.Init 16000)))))

/-- The formant-filter states reachable through `SynthEngine`: the engine
calls `UpdateParameters` and `SetWahPosition` on every `Process` tick,
`SetVowel` from `StartEnvelope` / `UpdateEnvelope` / `PossiblyUpdateVowel`,
`SetFormantRate` from `UpdateEnvelope`, and `SetVoice(std::rand() % 3)` from
`PossiblyUpdateVowel`. No reachable operation calls `SetMode`. -/
inductive FFReach : FormantState → Prop
  | init : FFReach engineFormantInit
  | update (s : FormantState) : FFReach s →
      FFReach (FormantFilter.UpdateParameters s)
  | wah (p : ℚ) (s : FormantState) : FFReach s →
      FFReach (FormantFilter.SetWahPosition p s)
  | vowel (w : Vowel) (s : FormantState) : FFReach s →
      FFReach (FormantFilter.SetVowel w s)
  | rate (r : ℚ) (s : FormantState) : FFReach s →
      FFReach (FormantFilter.SetFormantRate r s)
  | voice (v : ℤ) (s : FormantState) : 0 ≤ v → v < 3 → FFReach s →
      FFReach (FormantFilter.SetVoice v s)

/-! ## ADSR envelope (src/app/engine/synth_engine.h lines 278-285, 393-472) -/

inductive ADSRState
  | kIdle
  | kAttack
  | kDecay
  | kSustain
  | kRelease
  deriving DecidableEq

structure ADSRParams where
  adsr_attack_time : ℚ
  adsr_decay_time : ℚ
  adsr_sustain_level : ℚ
  adsr_release_time : ℚ
  sample_rate : ℚ
  deriving DecidableEq

/-- The ADSR parameters set by `SynthEngine::Init` (lines 83-87, 57). -/
def engineADSRParams : ADSRParams :=
  { adsr_attack_time := 1/20, adsr_decay_time := 1/5,
    adsr_sustain_level := 4/5, adsr_release_time := 1/10,
    sample_rate := 16000 }

/-- `SynthEngine::StartEnvelope` (lines 393-404), restricted to the
`(adsr_state_, adsr_value_)` pair it writes. -/
def StartEnvelope : ADSRState × ℚ → ADSRState × ℚ :=
  fun _ => (ADSRState.kAttack, 0)

/-- `SynthEngine::StopEnvelope` (lines 406-413): moves to `kRelease` unless
already `kIdle`; otherwise the state is untouched. -/
def StopEnvelope (sv : ADSRState × ℚ) : ADSRState × ℚ :=
  if sv.1 ≠ ADSRState.kIdle then (ADSRState.kRelease, sv.2) else sv

/-- `SynthEngine::UpdateEnvelope` (lines 415-472), restricted to the
`(adsr_state_, adsr_value_)` pair (the `kRelease` branch additionally calls
`SetVowel`/`SetFormantRate` on the formant filter, covered by `FFReach`). -/
def UpdateEnvelope (p : ADSRParams) (sv : ADSRState × ℚ) : ADSRState × ℚ :=
  match sv.1 with
  | ADSRState.kAttack =>
      let v := sv.2 + 1 / (p.adsr_attack_time * p.sample_rate)
      if v ≥ 1 then (ADSRState.kDecay, 1) else (ADSRState.kAttack, v)
  | ADSRState.kDecay =>
      let v := sv.2 - (1 - p.adsr_sustain_level) / (p.adsr_decay_time * p.sample_rate)
      if v ≤ p.adsr_sustain_level then (ADSRState.kSustain, p.adsr_sustain_level)
      else (ADSRState.kDecay, v)
  | ADSRState.kSustain => (ADSRState.kSustain, p.adsr_sustain_level)
  | ADSRState.kRelease =>
      let v := sv.2 - p.adsr_sustain_level / (p.adsr_release_time * p.sample_rate)
      if v ≤ 0 then (ADSRState.kIdle, 0) else (ADSRState.kRelease, v)
  | ADSRState.kIdle => (ADSRState.kIdle, 0)

/-- The envelope pairs reachable in `SynthEngine`: the envelope starts idle
with value 0 (`Init` line 47 ff., constructor lines 33-34) and is only ever
mutated by `StartEnvelope`, `StopEnvelope` and `UpdateEnvelope`. -/
inductive ADSRReach (p : ADSRParams) : ADSRState × ℚ → Prop
  | init : ADSRReach p (ADSRState.kIdle, 0)
  | start (s : ADSRState × ℚ) : ADSRReach p s → ADSRReach p (StartEnvelope s)
  | stop (s : ADSRState × ℚ) : ADSRReach p s → ADSRReach p (StopEnvelope s)
  | update (s : ADSRState × ℚ) : ADSRReach p s → ADSRReach p (UpdateEnvelope p s)

/-- Envelope invariant maintained by all reachable states: the value is
nonnegative, bounded by 1, at least the sustain level during decay, and
equal to the sustain level during sustain. -/
def ADSRInv (p : ADSRParams) (sv : ADSRState × ℚ) : Prop :=
  0 ≤ sv.2 ∧ sv.2 ≤ 1 ∧
  (sv.1 = ADSRState.kDecay → p.adsr_sustain_level ≤ sv.2) ∧
  (sv.1 = ADSRState.kSustain → sv.2 = p.adsr_sustain_level)

/-! ## SynthEngine block write (src/app/engine/synth_engine.h lines 213-220)

`common/config.h` and `app/engine/aafilter.h` are not under `src/`, so
`kAudioOSFactor` and `kAudioOutputLevel` are kept as parameters and the
anti-alias (reconstruction) filter is kept abstract. Modelled from the spec:
the reconstruction filter exposes `Process(sample) -> sample` and is
stateful, so it is a parameter `aaProcess : S → ℚ → S × ℚ` mapping a filter
state and an input sample to the new state and the output sample. -/

/-- The loop `for (i = 0; i < kAudioOSFactor; i++) block[i] =
aa_filter_.Process(i == 0 ? sample : 0.0f)`. -/
def writeBlock {S : Type} (aaProcess : S → ℚ → S × ℚ) (osFactor : ℕ)
    (sample : ℚ) (st : S) : List ℚ × S :=
  (List.range osFactor).foldl
    (fun acc i =>
      let r := aaProcess acc.2 (if i = 0 then sample else 0)
      (acc.1 ++ [r.2], r.1))
    ([], st)

/-- Lines 213-220 of `SynthEngine::Process`: scale the rendered sample by
`kAudioOSFactor * kAudioOutputLevel`, then run the block-write loop. -/
def processBlockWrite {S : Type} (aaProcess : S → ℚ → S × ℚ) (osFactor : ℕ)
    (outputLevel : ℚ) (rawSample : ℚ) (st : S) : List ℚ × S :=
  writeBlock aaProcess osFactor (rawSample * (osFactor * outputLevel)) st

/-- Threading a list of input samples through a stateful filter, collecting
the outputs in order. -/
def aaOutputs {S : Type} (aaProcess : S → ℚ → S × ℚ) (st : S) :
    List ℚ → List ℚ × S
  | [] => ([], st)
  | x :: xs =>
      let r := aaProcess st x
      let rest := aaOutputs aaProcess r.1 xs
      (r.2 :: rest.1, rest.2)

/-- `OnePoleLowpass::Process` (src/app/engine/one_pole.h lines 24-28):
`history_ += factor_ * (input - history_); return history_` — used below as
a concrete stateful instance of the reconstruction-filter contract. -/
def onePoleProcess (factor history input : ℚ) : ℚ :=
  history + factor * (input - history)

/-- `onePoleProcess` packaged in the abstract-filter shape (state = history). -/
def onePoleAA (factor : ℚ) : ℚ → ℚ → ℚ × ℚ :=
  fun history input =>
    (onePoleProcess factor history input, onePoleProcess factor history input)

/-! ## Frequency remapping (src/app/engine/synth_engine.h) -/

/-- `SynthEngine::mapFloat` (lines 586-589). -/
def mapFloat (x in_min in_max out_min out_max : ℚ) : ℚ :=
  (x - in_min) * (out_max - out_min) / (in_max - in_min) + out_min

/-- `SynthEngine::kMinFundamental` (~C1, line 272). -/
def kMinFundamental : ℚ := 327/10

/-- `SynthEngine::kMaxFundamental` (~C6, line 273). -/
def kMaxFundamental : ℚ := 10465/10

/-! # Theorems -/

/-! ## C1: scale-degree quantization -/

theorem DTI_of_lt_18 {pot : ℚ} (h : pot < 1/8) : DetermineTargetIndex pot = 0 := by
  unfold DetermineTargetIndex
  rw [if_pos]
  simpa [kThresholds] using h

theorem DTI_of_ge_78 {pot : ℚ} (h : 7/8 ≤ pot) : DetermineTargetIndex pot = 7 := by
  unfold DetermineTargetIndex
  rw [if_neg (by simp only [kThresholds, List.getD]; norm_num; linarith), if_pos]
  · rfl
  · simp only [kThresholds, kNumThresholds, List.getD]
    norm_num
    linarith

theorem DTI_mid {pot : ℚ} (h1 : 1/8 ≤ pot) (h2 : pot < 7/8) :
    DetermineTargetIndex pot = detIndexLoop pot 1 [1/4, 3/8, 1/2, 5/8, 3/4, 7/8] := by
  unfold DetermineTargetIndex
  rw [if_neg (by simp only [kThresholds, List.getD]; norm_num; linarith),
      if_neg (by simp only [kThresholds, kNumThresholds, List.getD]; norm_num; linarith)]
  rfl

theorem detIndexLoop_eval (pot : ℚ) :
    detIndexLoop pot 1 [1/4, 3/8, 1/2, 5/8, 3/4, 7/8] =
      if pot < 1/4 then 1 else if pot < 3/8 then 2 else if pot < 1/2 then 3
      else if pot < 5/8 then 4 else if pot < 3/4 then 5 else if pot < 7/8 then 6
      else 7 := by
  simp only [detIndexLoop, kNumNotes]

/-- **C1** (amended). `DetermineTargetIndex` is a step function on pot values:
degree 0 below the first threshold `1/8`, degree 7 at or above the last
threshold `7/8`, and otherwise exactly the index of the first threshold the
value is below; in particular `0.0, 0.2, 0.5, 0.9` map to `0, 1, 4, 7`
(the source returns `4`, not `3`, for pot `0.5`, since the first threshold
`0.5` is not strictly above `0.5`). -/
theorem determineTargetIndex_spec (pot : ℚ) :
    (pot < 1/8 → DetermineTargetIndex pot = 0) ∧
    (7/8 ≤ pot → DetermineTargetIndex pot = 7) ∧
    (1/8 ≤ pot → pot < 7/8 →
      1 ≤ DetermineTargetIndex pot ∧ DetermineTargetIndex pot ≤ 6 ∧
      pot < kThresholds.getD (DetermineTargetIndex pot) 0 ∧
      ∀ i, i < DetermineTargetIndex pot → kThresholds.getD i 0 ≤ pot) ∧
    DetermineTargetIndex 0 = 0 ∧ DetermineTargetIndex (2/10) = 1 ∧
    DetermineTargetIndex (1/2) = 4 ∧ DetermineTargetIndex (9/10) = 7 := by
  refine ⟨fun h => DTI_of_lt_18 h, fun h => DTI_of_ge_78 h, fun h1 h2 => ?_,
    DTI_of_lt_18 (by norm_num), ?_, ?_, DTI_of_ge_78 (by norm_num)⟩
  · rw [DTI_mid h1 h2, detIndexLoop_eval]
    split_ifs with h3 h4 h5 h6 h7
    · refine ⟨by norm_num, by norm_num, ?_, ?_⟩
      · simpa only [kThresholds, List.getD_cons_zero, List.getD_cons_succ] using h3
      · intro i hi
        interval_cases i
        simp only [kThresholds, List.getD_cons_zero, List.getD_cons_succ]
        linarith
    · refine ⟨by norm_num, by norm_num, ?_, ?_⟩
      · simpa only [kThresholds, List.getD_cons_zero, List.getD_cons_succ] using h4
      · intro i hi
        interval_cases i <;>
          simp only [kThresholds, List.getD_cons_zero, List.getD_cons_succ] <;>
          linarith
    · refine ⟨by norm_num, by norm_num, ?_, ?_⟩
      · simpa only [kThresholds, List.getD_cons_zero, List.getD_cons_succ] using h5
      · intro i hi
        interval_cases i <;>
          simp only [kThresholds, List.getD_cons_zero, List.getD_cons_succ] <;>
          linarith
    · refine ⟨by norm_num, by norm_num, ?_, ?_⟩
      · simpa only [kThresholds, List.getD_cons_zero, List.getD_cons_succ] using h6
      · intro i hi
        interval_cases i <;>
          simp only [kThresholds, List.getD_cons_zero, List.getD_cons_succ] <;>
          linarith
    · refine ⟨by norm_num, by norm_num, ?_, ?_⟩
      · simpa only [kThresholds, List.getD_cons_zero, List.getD_cons_succ] using h7
      · intro i hi
        interval_cases i <;>
          simp only [kThresholds, List.getD_cons_zero, List.getD_cons_succ] <;>
          linarith
    · refine ⟨by norm_num, by norm_num, ?_, ?_⟩
      · simpa only [kThresholds, List.getD_cons_zero, List.getD_cons_succ] using h2
      · intro i hi
        interval_cases i <;>
          simp only [kThresholds, List.getD_cons_zero, List.getD_cons_succ] <;>
          linarith
  · rw [DTI_mid (by norm_num) (by norm_num), detIndexLoop_eval]
    norm_num
  · rw [DTI_mid (by norm_num) (by norm_num), detIndexLoop_eval]
    norm_num

/-- Witness for `determineTargetIndex_spec`: the interior characterization at
pot `1/2`, with both hypotheses discharged. -/
theorem determineTargetIndex_spec_witness :
    1 ≤ DetermineTargetIndex (1/2) ∧ DetermineTargetIndex (1/2) ≤ 6 ∧
    (1:ℚ)/2 < kThresholds.getD (DetermineTargetIndex (1/2)) 0 ∧
    ∀ i, i < DetermineTargetIndex (1/2) → kThresholds.getD i 0 ≤ 1/2 :=
  (determineTargetIndex_spec (1/2)).2.2.1 (by norm_num) (by norm_num)

/-- **C1 counterexample**: the claim's example `0.5 ↦ 3` is false — the code
returns scale degree `4` for pot value `0.5` (because `0.5` is not strictly
below the threshold `kThresholds[3] = 0.5`). -/
theorem determineTargetIndex_half_ne_three :
    DetermineTargetIndex (1/2) = 4 ∧ DetermineTargetIndex (1/2) ≠ 3 := by
  constructor
  · rw [DTI_mid (by norm_num) (by norm_num), detIndexLoop_eval]
    norm_num
  · rw [DTI_mid (by norm_num) (by norm_num), detIndexLoop_eval]
    norm_num

/-! ## C2: duty-cycle clamping -/

theorem updateDutyCycle_inv (r : ℚ) (s : PulseGenState) :
    DutyInv s.base_dutycycle s.duty_cyclerandomization (UpdateDutyCycle r s) := by
  unfold UpdateDutyCycle DutyInv
  split_ifs with h
  · refine ⟨rfl, rfl, fun _ => ⟨le_max_left _ _,
      max_le (by norm_num) (min_le_left _ _)⟩, fun h0 => ?_⟩
    rw [h0] at h
    exact absurd h (lt_irrefl 0)
  · exact ⟨rfl, rfl, fun hp => absurd hp h, fun _ => rfl⟩

theorem generateSample_inv (r phase dt b rq : ℚ) (s : PulseGenState)
    (hInv : DutyInv b rq s) :
    DutyInv b rq (GenerateSample r phase dt s).2 := by
  obtain ⟨hb, hr, hpos, hzero⟩ := hInv
  subst hb
  subst hr
  unfold GenerateSample
  dsimp only
  split_ifs with hc
  · have h := updateDutyCycle_inv r
      { s with randomizationcounter := s.randomizationcounter - 1 }
    exact ⟨h.1, h.2.1, h.2.2.1, h.2.2.2⟩
  · exact ⟨rfl, rfl, hpos, hzero⟩

theorem runGenerate_inv (inputs : List (ℚ × ℚ × ℚ)) (b rq : ℚ)
    (s : PulseGenState) (h : DutyInv b rq s) :
    DutyInv b rq (runGenerate inputs s) := by
  induction inputs generalizing s with
  | nil => exact h
  | cons x xs ih =>
      exact ih _ (generateSample_inv x.1 x.2.1 x.2.2 b rq s h)

/-- **C2** (amended). After `SetBaseDutyCycle(d)` and any subsequent sequence
of `GenerateSample` calls: when the duty-cycle randomization is positive the
current duty cycle lies in `[0.1, 0.9]`, and when the randomization is 0
the current duty cycle equals `clamp(d, 0, 1)` (which for `d` outside
`[0.1, 0.9]` — e.g. the engine's own base duty `0.01` — is *not* in
`[0.1, 0.9]`). -/
theorem pulse_duty_spec (d r0 : ℚ) (s : PulseGenState)
    (inputs : List (ℚ × ℚ × ℚ)) :
    (0 < s.duty_cyclerandomization →
      1/10 ≤ (runGenerate inputs (SetBaseDutyCycle r0 d s)).current_dutycycle ∧
      (runGenerate inputs (SetBaseDutyCycle r0 d s)).current_dutycycle ≤ 9/10) ∧
    (s.duty_cyclerandomization = 0 →
      (runGenerate inputs (SetBaseDutyCycle r0 d s)).current_dutycycle
        = max 0 (min 1 d)) := by
  have h0 : DutyInv (max 0 (min 1 d)) s.duty_cyclerandomization
      (SetBaseDutyCycle r0 d s) := by
    have h := updateDutyCycle_inv r0 { s with base_dutycycle := max 0 (min 1 d) }
    exact h
  have h1 := runGenerate_inv inputs _ _ _ h0
  exact ⟨h1.2.2.1, h1.2.2.2⟩

/-- Witness for `pulse_duty_spec`: the engine's own initialization input
`d = 0.01` with randomization 0 and one `GenerateSample` call. -/
theorem pulse_duty_spec_witness :
    (runGenerate [(0, 1/2, 1/100)]
        (SetBaseDutyCycle 0 (1/100) PulseGenerator.initial)).current_dutycycle
      = max 0 (min 1 (1/100)) :=
  (pulse_duty_spec (1/100) 0 PulseGenerator.initial [(0, 1/2, 1/100)]).2 rfl

/-- **C2 counterexample**: with randomization 0 (the constructor default, and
what `SynthEngine::Init` configures) the input `d = 0.01` — the engine's own
`SetBaseDutyCycle(0.01f)` call — leaves the effective duty cycle at `0.01`,
outside `[0.1, 0.9]`. -/
theorem pulse_duty_out_of_range :
    (SetBaseDutyCycle 0 (1/100) PulseGenerator.initial).current_dutycycle = 1/100 ∧
    ¬ (1/10 : ℚ) ≤ (SetBaseDutyCycle 0 (1/100) PulseGenerator.initial).current_dutycycle := by
  have h : (SetBaseDutyCycle 0 (1/100) PulseGenerator.initial).current_dutycycle
      = 1/100 := by
    norm_num [SetBaseDutyCycle, UpdateDutyCycle, PulseGenerator.initial]
  refine ⟨h, ?_⟩
  rw [h]
  norm_num

/-! ## C6: PolyBLEP correction window -/

theorem fmod1_eq_self {t : ℚ} (h0 : 0 ≤ t) (h1 : t < 1) : fmod1 t = t := by
  unfold fmod1 qtrunc
  rw [if_neg (not_lt.mpr h0), Int.floor_eq_zero_iff.mpr ⟨h0, h1⟩]
  simp

theorem polyBlep_eq_zero {t dt : ℚ} (hdt : 0 ≤ dt) (h1 : dt < t)
    (h2 : t < 1 - dt) : PolyBlep t dt = 0 := by
  unfold PolyBlep
  rcases eq_or_lt_of_le hdt with heq | hpos
  · rw [if_pos heq.symm]
  · rw [if_neg (ne_of_gt hpos)]
    simp only [fmod1_eq_self (show (0:ℚ) ≤ t by linarith) (show t < 1 by linarith)]
    rw [if_neg (not_lt.mpr (le_of_lt h1)), if_neg (not_lt.mpr (le_of_lt h2))]

/-- **C6**. For any duty cycle and phase increment, the PolyBLEP correction
applied by `GenerateSample` is exactly 0 when the phase is further than one
phase increment from both the rising edge (phase `0` mod 1) and the falling
edge (phase = duty cycle): the generated sample equals the raw square-wave
value. In the degenerate case `dt = 0`, `PolyBlep` short-circuits to 0
instead of dividing by zero. -/
theorem pulse_correction_zero_away_from_edges (phase duty dt : ℚ)
    (hdt : 0 ≤ dt)
    (h1 : dt < phase) (h2 : phase < 1 - dt)
    (h3 : dt < fallingPhase phase duty) (h4 : fallingPhase phase duty < 1 - dt) :
    pulseSampleValue phase dt duty = (if phase < duty then 1 else -1) ∧
    ∀ t, PolyBlep t 0 = 0 := by
  constructor
  · unfold pulseSampleValue
    rw [polyBlep_eq_zero hdt h1 h2, polyBlep_eq_zero hdt h3 h4, sub_zero, add_zero]
  · intro t
    unfold PolyBlep
    rw [if_pos rfl]

/-- Witness for `pulse_correction_zero_away_from_edges`: duty `1/2`,
increment `1/100`, phase `1/4` (both edge distances exceed the increment);
the correction vanishes and the sample is the raw high value `1`. -/
theorem pulse_correction_witness : pulseSampleValue (1/4) (1/100) (1/2) = 1 := by
  have h := (pulse_correction_zero_away_from_edges (1/4) (1/2) (1/100)
    (by norm_num) (by norm_num) (by norm_num)
    (by norm_num [fallingPhase]) (by norm_num [fallingPhase])).1
  rw [h]
  norm_num

/-! ## C3: vibrato buildup ramp -/

/-- **C3 divergence** (code bug): with sample rate 10 Hz, buildup time 1 s
and live depth `1/4`, `Trigger()` followed by exactly
`buildupSeconds · sampleRate = 10` `Process` calls leaves the ramp depth at
`(1/4)·(1 − (9/10)^10)` — a remaining gap of `(1/4)·(9/10)^10 > 1/12`, far
above the completion epsilon `10⁻⁴`. The per-sample step moves the fraction
`alpha = 1/(buildupTime·sampleRate)` of the *remaining difference*
(exponential approach), so the ramp is nowhere near the target after the
advertised buildup duration, contradicting the code's own comment
(vibrato.h lines 96-98) and the spec. -/
theorem vibrato_buildup_gap :
    (iterVibrato 10 vibratoTriggered).depth_ = 1/4 ∧
    (iterVibrato 10 vibratoTriggered).currentDepth_ = 1/4 * (1 - (9/10)^10) ∧
    1/12 < (iterVibrato 10 vibratoTriggered).depth_
      - (iterVibrato 10 vibratoTriggered).currentDepth_ := by
  have hd : (iterVibrato 10 vibratoTriggered).depth_ = 1/4 := by
    norm_num [iterVibrato, Vibrato.ProcessState, Vibrato.Trigger,
      vibratoTriggered, qPI, abs]
  have hc : (iterVibrato 10 vibratoTriggered).currentDepth_
      = 1/4 * (1 - (9/10)^10) := by
    norm_num [iterVibrato, Vibrato.ProcessState, Vibrato.Trigger,
      vibratoTriggered, qPI, abs]
  refine ⟨hd, hc, ?_⟩
  rw [hd, hc]
  norm_num

/-! ## C4: clamping of external control values -/

/-- **C4** (amended). The duty cycle is clamped to `[0,1]` by
`SetBaseDutyCycle`, the wah position to `[0,1]` by `SetWahPosition`, the
vibrato depth is scaled by `SetDepth` and clamped to its bounded maximum
`[0, 0.25]` inside `Process` before use (both the live depth and the ramp
depth), and the pot-derived fundamental is remapped affinely onto
`[kMinFundamental, kMaxFundamental]`, so every pot value in `[0,1]` lands in
the supported fundamental range. -/
theorem controls_clamped_spec :
    (∀ r d : ℚ, ∀ s : PulseGenState,
        0 ≤ (SetBaseDutyCycle r d s).base_dutycycle ∧
        (SetBaseDutyCycle r d s).base_dutycycle ≤ 1) ∧
    (∀ p : ℚ, ∀ s : FormantState,
        0 ≤ (FormantFilter.SetWahPosition p s).wahPosition_ ∧
        (FormantFilter.SetWahPosition p s).wahPosition_ ≤ 1) ∧
    (∀ s : VibratoState,
        0 ≤ (Vibrato.ProcessState s).depth_ ∧
        (Vibrato.ProcessState s).depth_ ≤ 1/4 ∧
        0 ≤ (Vibrato.ProcessState s).currentDepth_ ∧
        (Vibrato.ProcessState s).currentDepth_ ≤ 1/4) ∧
    (∀ pot : ℚ, 0 ≤ pot → pot ≤ 1 →
        kMinFundamental ≤ mapFloat pot 0 1 kMinFundamental kMaxFundamental ∧
        mapFloat pot 0 1 kMinFundamental kMaxFundamental ≤ kMaxFundamental) := by
  refine ⟨fun r d s => ?_, fun p s => ?_, fun s => ?_, fun pot h0 h1 => ?_⟩
  · have h := (updateDutyCycle_inv r
      { s with base_dutycycle := max 0 (min 1 d) }).1
    unfold SetBaseDutyCycle
    rw [h]
    exact ⟨le_max_left _ _, max_le (by norm_num) (min_le_left _ _)⟩
  · unfold FormantFilter.SetWahPosition
    dsimp only
    split_ifs <;> constructor <;> linarith
  · unfold Vibrato.ProcessState
    dsimp only
    split_ifs <;> refine ⟨?_, ?_, ?_, ?_⟩ <;> linarith
  · unfold mapFloat kMinFundamental kMaxFundamental
    constructor <;> nlinarith

/-- Witness for `controls_clamped_spec`: pot value `1/2` lands inside the
supported fundamental range. -/
theorem controls_clamped_witness :
    kMinFundamental ≤ mapFloat (1/2) 0 1 kMinFundamental kMaxFundamental ∧
    mapFloat (1/2) 0 1 kMinFundamental kMaxFundamental ≤ kMaxFundamental :=
  controls_clamped_spec.2.2.2 (1/2) (by norm_num) (by norm_num)

/-- **C4 counterexample**: `SetDepth` itself performs no clamping — the
out-of-range input `2` yields a target depth `1/2`, above the bounded
maximum `1/4`; the clamp only happens later inside `Process`. -/
theorem setDepth_not_clamped :
    (Vibrato.SetDepth 2 Vibrato.ctor).targetDepth_ = 1/2 ∧
    ¬ (Vibrato.SetDepth 2 Vibrato.ctor).targetDepth_ ≤ 1/4 := by
  norm_num [Vibrato.SetDepth, Vibrato.ctor]

/-! ## C8: StopEnvelope idempotence -/

/-- **C8**. `StopEnvelope` moves the envelope state to `kRelease`
(preserving the envelope value) whenever the current state is not `kIdle`,
and leaves the state pair completely unchanged when called while idle. -/
theorem stopEnvelope_spec (sv : ADSRState × ℚ) :
    (sv.1 ≠ ADSRState.kIdle → StopEnvelope sv = (ADSRState.kRelease, sv.2)) ∧
    (sv.1 = ADSRState.kIdle → StopEnvelope sv = sv) := by
  unfold StopEnvelope
  constructor
  · intro h
    rw [if_pos h]
  · intro h
    rw [if_neg (by simp [h])]

/-- Witness for `stopEnvelope_spec`: unchanged from idle, release from
sustain. -/
theorem stopEnvelope_spec_witness :
    StopEnvelope (ADSRState.kIdle, 0) = (ADSRState.kIdle, 0) ∧
    StopEnvelope (ADSRState.kSustain, 4/5) = (ADSRState.kRelease, 4/5) :=
  ⟨(stopEnvelope_spec (ADSRState.kIdle, 0)).2 rfl,
   (stopEnvelope_spec (ADSRState.kSustain, 4/5)).1 (by decide)⟩

/-! ## C7: envelope monotonicity -/

theorem adsrInv_holds (p : ADSRParams)
    (ha : 0 < p.adsr_attack_time) (hd : 0 < p.adsr_decay_time)
    (hs0 : 0 ≤ p.adsr_sustain_level) (hs1 : p.adsr_sustain_level ≤ 1)
    (hr : 0 < p.adsr_release_time) (hsr : 0 < p.sample_rate)
    (sv : ADSRState × ℚ) (hreach : ADSRReach p sv) : ADSRInv p sv := by
  induction hreach with
  | init => exact ⟨le_refl 0, by norm_num, by intro h; simp at h, by intro h; simp at h⟩
  | start s hs ih =>
      refine ⟨?_, ?_, ?_, ?_⟩ <;> simp [StartEnvelope]
  | stop s hs ih =>
      obtain ⟨hv0, hv1, hdec, hsus⟩ := ih
      unfold StopEnvelope
      split_ifs with h
      · exact ⟨hv0, hv1, by intro hh; simp at hh, by intro hh; simp at hh⟩
      · exact ⟨hv0, hv1, hdec, hsus⟩
  | update s hs ih =>
      obtain ⟨hv0, hv1, hdec, hsus⟩ := ih
      obtain ⟨st, v⟩ := s
      cases st with
      | kIdle => refine ⟨?_, ?_, ?_, ?_⟩ <;> simp [UpdateEnvelope]
      | kAttack =>
          unfold UpdateEnvelope
          dsimp only
          have hinc : 0 < 1 / (p.adsr_attack_time * p.sample_rate) := by positivity
          split_ifs with hge
          · exact ⟨by norm_num, le_refl 1, fun _ => hs1,
              by intro h; simp at h⟩
          · refine ⟨by dsimp at hv0 ⊢; linarith, by linarith [not_le.mp (by simpa using hge)],
              by intro h; simp at h, by intro h; simp at h⟩
      | kDecay =>
          unfold UpdateEnvelope
          dsimp only
          have hdec2 : 0 ≤ (1 - p.adsr_sustain_level) / (p.adsr_decay_time * p.sample_rate) := by
            apply div_nonneg (by linarith) (by positivity)
          split_ifs with hle
          · exact ⟨hs0, hs1, by intro h; simp at h, fun _ => rfl⟩
          · refine ⟨?_, ?_, fun _ => ?_, by intro h; simp at h⟩
            · dsimp at hdec ⊢
              have := not_le.mp hle
              linarith
            · dsimp at hv1 ⊢
              linarith
            · dsimp
              exact le_of_lt (not_le.mp hle)
      | kSustain =>
          exact ⟨hs0, hs1, by intro h; simp [UpdateEnvelope] at h, fun _ => rfl⟩
      | kRelease =>
          unfold UpdateEnvelope
          dsimp only
          have hrel : 0 ≤ p.adsr_sustain_level / (p.adsr_release_time * p.sample_rate) := by
            apply div_nonneg hs0 (by positivity)
          split_ifs with hle
          · exact ⟨le_refl 0, by norm_num, by intro h; simp at h, by intro h; simp at h⟩
          · refine ⟨le_of_lt (not_le.mp hle), ?_, by intro h; simp at h,
              by intro h; simp at h⟩
            dsimp at hv1 ⊢
            linarith

/-- **C7**. Over every reachable envelope state (any interleaving of
`StartEnvelope`, `StopEnvelope`, `UpdateEnvelope` from the initial idle
state), with positive attack/decay/release times, positive sample rate and
sustain level in `[0,1]`: the value is non-decreasing on an Attack step,
equals exactly 1 at the Attack→Decay transition, is non-increasing on Decay
and Release steps, and equals the sustain level on every Sustain step. -/
theorem envelope_monotone_spec (p : ADSRParams)
    (ha : 0 < p.adsr_attack_time) (hd : 0 < p.adsr_decay_time)
    (hs0 : 0 ≤ p.adsr_sustain_level) (hs1 : p.adsr_sustain_level ≤ 1)
    (hr : 0 < p.adsr_release_time) (hsr : 0 < p.sample_rate)
    (sv : ADSRState × ℚ) (hreach : ADSRReach p sv) :
    (sv.1 = ADSRState.kAttack → sv.2 ≤ (UpdateEnvelope p sv).2) ∧
    (sv.1 = ADSRState.kAttack → (UpdateEnvelope p sv).1 = ADSRState.kDecay →
      (UpdateEnvelope p sv).2 = 1) ∧
    (sv.1 = ADSRState.kDecay → (UpdateEnvelope p sv).2 ≤ sv.2) ∧
    (sv.1 = ADSRState.kRelease → (UpdateEnvelope p sv).2 ≤ sv.2) ∧
    (sv.1 = ADSRState.kSustain → (UpdateEnvelope p sv).2 = p.adsr_sustain_level) := by
  obtain ⟨hv0, hv1, hdec, hsus⟩ :=
    adsrInv_holds p ha hd hs0 hs1 hr hsr sv hreach
  obtain ⟨st, v⟩ := sv
  dsimp only at hv0 hv1 hdec hsus
  cases st with
  | kIdle => refine ⟨?_, ?_, ?_, ?_, ?_⟩ <;> intro h <;> simp_all
  | kAttack =>
      have hinc : 0 < 1 / (p.adsr_attack_time * p.sample_rate) := by positivity
      refine ⟨fun _ => ?_, fun _ hst => ?_, ?_, ?_, ?_⟩
      · unfold UpdateEnvelope
        dsimp only
        split_ifs with hge
        · dsimp only
          linarith
        · dsimp only
          linarith
      · unfold UpdateEnvelope at hst ⊢
        dsimp only at hst ⊢
        split_ifs at hst ⊢ with hge
        rfl
      · intro h; simp at h
      · intro h; simp at h
      · intro h; simp at h
  | kDecay =>
      have hdec2 : 0 ≤ (1 - p.adsr_sustain_level) / (p.adsr_decay_time * p.sample_rate) := by
        apply div_nonneg (by linarith) (by positivity)
      refine ⟨?_, ?_, fun _ => ?_, ?_, ?_⟩
      · intro h; simp at h
      · intro h; simp at h
      · unfold UpdateEnvelope
        dsimp only
        split_ifs with hle
        · dsimp only
          exact hdec rfl
        · dsimp only
          linarith
      · intro h; simp at h
      · intro h; simp at h
  | kSustain =>
      refine ⟨?_, ?_, ?_, ?_, fun _ => rfl⟩ <;> intro h <;> simp at h
  | kRelease =>
      have hrel : 0 ≤ p.adsr_sustain_level / (p.adsr_release_time * p.sample_rate) := by
        apply div_nonneg hs0 (by positivity)
      refine ⟨?_, ?_, ?_, fun _ => ?_, ?_⟩
      · intro h; simp at h
      · intro h; simp at h
      · intro h; simp at h
      · unfold UpdateEnvelope
        dsimp only
        split_ifs with hle
        · dsimp only
          linarith
        · dsimp only
          linarith
      · intro h; simp at h

/-- Witness for `envelope_monotone_spec`: the engine's own ADSR parameters,
at the reachable post-`StartEnvelope` state `(kAttack, 0)`. -/
theorem envelope_monotone_witness :
    (0 : ℚ) ≤ (UpdateEnvelope engineADSRParams (ADSRState.kAttack, 0)).2 :=
  (envelope_monotone_spec engineADSRParams
    (by norm_num [engineADSRParams]) (by norm_num [engineADSRParams])
    (by norm_num [engineADSRParams]) (by norm_num [engineADSRParams])
    (by norm_num [engineADSRParams]) (by norm_num [engineADSRParams])
    (ADSRState.kAttack, 0)
    (ADSRReach.start (ADSRState.kIdle, 0) ADSRReach.init)).1 rfl

/-! ## C9: filter mode invariant -/

theorem ffreach_mode {s : FormantState} (h : FFReach s) :
    s.filterMode_ = FilterMode.FILTER_MODE_NORMAL := by
  induction h with
  | init => rfl
  | update s hs ih =>
      unfold FormantFilter.UpdateParameters
      dsimp only
      split_ifs
      all_goals exact ih
  | wah p s hs ih => exact ih
  | vowel w s hs ih =>
      unfold FormantFilter.SetVowel
      dsimp only
      split_ifs
      all_goals exact ih
  | rate r s hs ih => exact ih
  | voice v s hv0 hv3 hs ih =>
      unfold FormantFilter.SetVoice
      split_ifs
      all_goals exact ih

/-- **C9**. In every reachable formant-filter state the mode is
`FILTER_MODE_NORMAL` (set by `Init` and by `SynthEngine::Init`, and no
`SynthEngine` operation calls `SetMode` afterwards); hence the
wah-interpolation branch of `UpdateParameters` never runs — the targets are
untouched by `UpdateParameters` — and the per-tick `SetWahPosition` call
never changes the formant frequency/Q targets, alone or through the next
`UpdateParameters`. -/
theorem formant_mode_invariant (s : FormantState) (h : FFReach s) :
    s.filterMode_ = FilterMode.FILTER_MODE_NORMAL ∧
    (FormantFilter.UpdateParameters s).targetFormantFreqs_ = s.targetFormantFreqs_ ∧
    (FormantFilter.UpdateParameters s).targetFormantQs_ = s.targetFormantQs_ ∧
    ∀ p : ℚ,
      (FormantFilter.SetWahPosition p s).targetFormantFreqs_ = s.targetFormantFreqs_ ∧
      (FormantFilter.SetWahPosition p s).targetFormantQs_ = s.targetFormantQs_ ∧
      (FormantFilter.UpdateParameters
        (FormantFilter.SetWahPosition p s)).targetFormantFreqs_
          = s.targetFormantFreqs_ ∧
      (FormantFilter.UpdateParameters
        (FormantFilter.SetWahPosition p s)).targetFormantQs_
          = s.targetFormantQs_ := by
  have hmode := ffreach_mode h
  have hupd : ∀ t : FormantState, t.filterMode_ = FilterMode.FILTER_MODE_NORMAL →
      (FormantFilter.UpdateParameters t).targetFormantFreqs_ = t.targetFormantFreqs_ ∧
      (FormantFilter.UpdateParameters t).targetFormantQs_ = t.targetFormantQs_ := by
    intro t ht
    unfold FormantFilter.UpdateParameters
    rw [if_neg (by simp [ht])]
    exact ⟨rfl, rfl⟩
  refine ⟨hmode, (hupd s hmode).1, (hupd s hmode).2, fun p => ⟨rfl, rfl, ?_, ?_⟩⟩
  · exact (hupd (FormantFilter.SetWahPosition p s) hmode).1
  · exact (hupd (FormantFilter.SetWahPosition p s) hmode).2

/-- Witness for `formant_mode_invariant`: the initial engine state is
reachable and is in normal mode. -/
theorem formant_mode_invariant_witness :
    engineFormantInit.filterMode_ = FilterMode.FILTER_MODE_NORMAL :=
  (formant_mode_invariant engineFormantInit FFReach.init).1

/-! ## C10: voice index stays in bounds -/

theorem ffreach_voice {s : FormantState} (h : FFReach s) :
    s.currentVoice_ = 0 := by
  induction h with
  | init => rfl
  | update s hs ih =>
      unfold FormantFilter.UpdateParameters
      dsimp only
      split_ifs
      all_goals exact ih
  | wah p s hs ih => exact ih
  | vowel w s hs ih =>
      unfold FormantFilter.SetVowel
      dsimp only
      split_ifs
      all_goals exact ih
  | rate r s hs ih => exact ih
  | voice v s hv0 hv3 hs ih =>
      unfold FormantFilter.SetVoice
      split_ifs with hg
      · exact ih
      · dsimp only
        unfold VOICE_COUNT at hg
        push_neg at hg
        omega

/-- **C10**. `SetVoice` leaves the voice index unchanged for any argument
outside `[0, VOICE_COUNT)`; consequently — even though
`PossiblyUpdateVowel` requests `SetVoice(std::rand() % 3)` with values in
`{0, 1, 2}` — in every reachable state the voice index is `VOICE_NEUTRAL`
(0), and every `vowelData[currentVoice_][vowel]` access of `SetVowel` and
`UpdateParameters` is within the table bounds (row index < 1, vowel index
< 10). -/
theorem formant_voice_bounds (s : FormantState) (h : FFReach s) :
    (∀ v : ℤ, (v < 0 ∨ VOICE_COUNT ≤ v) → FormantFilter.SetVoice v s = s) ∧
    s.currentVoice_ = 0 ∧
    s.currentVoice_.toNat < vowelData.length ∧
    ∀ w : Vowel, w.toIdx < (vowelData.getD s.currentVoice_.toNat []).length := by
  have hv := ffreach_voice h
  refine ⟨fun v hv' => ?_, hv, ?_, ?_⟩
  · unfold FormantFilter.SetVoice
    rw [if_pos hv']
  · rw [hv]
    norm_num [vowelData]
  · intro w
    rw [hv]
    cases w <;> norm_num [vowelData, neutralVowelRow, Vowel.toIdx]

/-- Witness for `formant_voice_bounds`: at the reachable initial engine
state, the out-of-range request `SetVoice(2)` (a possible
`std::rand() % 3` outcome) leaves the state unchanged. -/
theorem formant_voice_bounds_witness :
    FormantFilter.SetVoice 2 engineFormantInit = engineFormantInit :=
  (formant_voice_bounds engineFormantInit FFReach.init).1 2
    (Or.inr (by norm_num [VOICE_COUNT]))

/-! ## C5: oversampled block write -/

theorem aaOutputs_length {S : Type} (f : S → ℚ → S × ℚ) (st : S) (xs : List ℚ) :
    (aaOutputs f st xs).1.length = xs.length := by
  induction xs generalizing st with
  | nil => rfl
  | cons x xs ih => simp [aaOutputs, ih]

theorem foldl_stuff_eq {S : Type} (f : S → ℚ → S × ℚ) (stuff : ℕ → ℚ)
    (xs : List ℕ) (st : S) (acc : List ℚ) :
    xs.foldl
      (fun a i => (a.1 ++ [(f a.2 (stuff i)).2], (f a.2 (stuff i)).1)) (acc, st)
      = (acc ++ (aaOutputs f st (xs.map stuff)).1,
         (aaOutputs f st (xs.map stuff)).2) := by
  induction xs generalizing st acc with
  | nil => simp [aaOutputs]
  | cons x xs ih =>
      simp only [List.foldl_cons, List.map_cons, aaOutputs]
      rw [ih]
      simp

theorem writeBlock_eq {S : Type} (f : S → ℚ → S × ℚ) (n : ℕ) (sample : ℚ)
    (st : S) :
    writeBlock f n sample st
      = aaOutputs f st ((List.range n).map fun i => if i = 0 then sample else 0) := by
  unfold writeBlock
  have h := foldl_stuff_eq f (fun i => if i = 0 then sample else 0)
    (List.range n) st []
  simp only [List.nil_append] at h
  exact h

theorem stuffedRange (n : ℕ) (sample : ℚ) (h : 1 ≤ n) :
    (List.range n).map (fun i => if i = 0 then sample else 0)
      = sample :: List.replicate (n - 1) 0 := by
  obtain ⟨m, rfl⟩ : ∃ m, n = m + 1 := ⟨n - 1, by omega⟩
  rw [List.range_succ_eq_map, List.map_cons, List.map_map, if_pos rfl,
    Nat.add_sub_cancel]
  congr 1
  have hc : ((fun i => if i = 0 then sample else 0) ∘ Nat.succ)
      = fun _ : ℕ => (0:ℚ) := by
    funext i
    simp [Function.comp]
  rw [hc, List.map_const', List.length_range]

/-- **C5** (amended). For any oversample factor ≥ 1, any output level and
any (stateful) anti-alias filter, the block written by
`SynthEngine::Process` holds exactly `osFactor` samples: the sequence of
inputs *fed to the anti-alias filter* is the computed sample scaled by
`osFactor · outputLevel` followed by `osFactor - 1` zeros, and the block
entries are the filter's outputs on that zero-stuffed sequence (the filter
runs inside `Process`, so the stored values are already filtered, not the
raw sample-and-zeros). -/
theorem processBlock_spec {S : Type} (aaProcess : S → ℚ → S × ℚ) (osFactor : ℕ)
    (outputLevel rawSample : ℚ) (st : S) (h1 : 1 ≤ osFactor) :
    (processBlockWrite aaProcess osFactor outputLevel rawSample st).1
      = (aaOutputs aaProcess st
          (rawSample * (osFactor * outputLevel)
            :: List.replicate (osFactor - 1) 0)).1 ∧
    (processBlockWrite aaProcess osFactor outputLevel rawSample st).1.length
      = osFactor := by
  have heq := writeBlock_eq aaProcess osFactor
    (rawSample * (osFactor * outputLevel)) st
  have hs := stuffedRange osFactor (rawSample * (osFactor * outputLevel)) h1
  constructor
  · unfold processBlockWrite
    rw [heq, hs]
  · unfold processBlockWrite
    rw [heq, hs, aaOutputs_length]
    simp only [List.length_cons, List.length_replicate]
    omega

/-- Witness for `processBlock_spec`: a one-pole low-pass (src
`OnePoleLowpass`, coefficient 1/2) as the stateful reconstruction filter,
oversample factor 2. -/
theorem processBlock_spec_witness :
    (processBlockWrite (onePoleAA (1/2)) 2 1 1 (0:ℚ)).1.length = 2 :=
  (processBlock_spec (onePoleAA (1/2)) 2 1 1 0 (by norm_num)).2

/-- **C5 counterexample**: because the anti-alias filter runs *inside*
`Process`, the written block is generally neither `sample × scale` at index
0 nor zero afterwards. With the one-pole low-pass (coefficient 1/2) as the
stateful filter, raw sample 1, output level 1 and oversample factor 2, the
block is `[1, 1/2]`: index 1 is not 0, and index 0 is not the scaled sample
`2`. -/
theorem blockWrite_not_zero_stuffed :
    (processBlockWrite (onePoleAA (1/2)) 2 1 1 (0:ℚ)).1 = [1, 1/2] ∧
    (1:ℚ)/2 ≠ 0 ∧ (1:ℚ) ≠ 1 * (2 * 1) := by
  refine ⟨?_, by norm_num, by norm_num⟩
  norm_num [processBlockWrite, writeBlock, onePoleAA, onePoleProcess,
    List.range_succ]

end BnnCyclops
